import Mathlib

/-
Verification development for the repository rafaelkamimura/claude-config.

The repository contains two independent Python scripts:
  * src/commands/pdf-to-markdown.py - a PDF-to-Markdown converter with a
    fallback chain (docling, then PyPDF2, then pdfplumber) and a heuristic
    keyword-based resume-section extractor built on regular expressions;
  * src/skills/async-testing-expert/generate_test_template.py - a test
    template stamper that substitutes a module name into one of three fixed
    templates and writes the result to a file.

Everything below is a shallow embedding of those scripts.  Pure string
manipulation is translated to executable Lean functions on `List Char`
(Python strings are sequences of code points, so `List Char` indexing agrees
with Python indexing).  The regular expressions of `extract_section` are
hand-compiled to deterministic scanners: each of the three patterns, under
`re.DOTALL` and Python's leftmost-then-lazy matching discipline, has a
deterministic match at every start position, so `re.search` is faithfully
implemented as a left-to-right scan for the first start position at which
the whole pattern matches.  Effects (imports, file system, stdout, process
exit) are modelled by explicit environments and result records.

A central fact about the source, reflected in the embedding: the first
pattern of `extract_section` is written as the Python rf-string
  rf'#{1,3}\s*{keyword}.*?\n(.*?)(?=\n#{1,3}|\Z)'
in which `{1,3}` is an f-string replacement field evaluating the tuple
`(1, 3)`, so the compiled regex is
  #(1, 3)\s*keyword.*?\n(.*?)(?=\n#(1, 3)|\Z)
i.e. a literal `#1, 3` is required, `(1, 3)` is capture group 1, and the
intended `{1,3}` quantifier ("1 to 3 hash characters") is lost.
-/

/-! ## Character-level helpers modelling Python string primitives (ASCII
fragment; all concrete inputs used below are ASCII, and the accented
keyword literals are already lower case). -/

/-- Python `str.lower` on a single ASCII character. -/
def pyLowerChar (c : Char) : Char :=
  if 'A' ≤ c ∧ c ≤ 'Z' then Char.ofNat (c.toNat + 32) else c

/-- Python `str.upper` on a single ASCII character. -/
def pyUpperChar (c : Char) : Char :=
  if 'a' ≤ c ∧ c ≤ 'z' then Char.ofNat (c.toNat - 32) else c

/-- Python `str.lower` on a string (ASCII fragment). -/
def pyLower (s : String) : String := String.mk (s.data.map pyLowerChar)

/-- ASCII alphabetic test, as used by Python `str.title` word boundaries. -/
def pyIsAlpha (c : Char) : Bool :=
  ('a' ≤ c && c ≤ 'z') || ('A' ≤ c && c ≤ 'Z')

/-- The regex class `\s` (ASCII fragment): space, tab, newline, vertical
tab, form feed, carriage return. -/
def pyIsSpaceChar (c : Char) : Bool :=
  c == ' ' || c == '\t' || c == '\n' || c == '\x0b' || c == '\x0c' || c == '\r'

/-- The regex class `\w` (ASCII fragment): letters, digits, underscore. -/
def pyIsWordChar (c : Char) : Bool :=
  pyIsAlpha c || ('0' ≤ c && c ≤ '9') || c == '_'

/-- `begins l p` holds when `p` is an initial segment of `l`. -/
def begins : List Char → List Char → Bool
  | _, [] => true
  | [], _ :: _ => false
  | c :: cs, d :: ds => c == d && begins cs ds

/-- Length of the maximal run of `\s` characters at the head of the list. -/
def wsRun : List Char → Nat
  | [] => 0
  | c :: cs => if pyIsSpaceChar c then wsRun cs + 1 else 0

/-- Length of the maximal run of `-`/`=` characters at the head of the
list (the `[-=]+` underline of the second pattern). -/
def dashRun : List Char → Nat
  | [] => 0
  | c :: cs => if c == '-' || c == '=' then dashRun cs + 1 else 0

/-- Does the list contain a newline immediately followed by `-` or `=`?
This decides the tail `\n[-=]+` of the second pattern's lookahead, with the
lazy `.*?` before it absorbing arbitrary characters. -/
def hasNlDash : List Char → Bool
  | '\n' :: c :: rest =>
    if c == '-' || c == '=' then true else hasNlDash (c :: rest)
  | _ :: rest => hasNlDash rest
  | [] => false

/-- Does the list contain a newline? -/
def hasNl : List Char → Bool
  | [] => false
  | '\n' :: _ => true
  | _ :: rest => hasNl rest

/-- Does the list contain a colon? -/
def hasColon : List Char → Bool
  | [] => false
  | ':' :: _ => true
  | _ :: rest => hasColon rest

/-- First absolute index `≥ i` whose suffix satisfies `p`; `l` is the
suffix of the scanned text starting at index `i`. -/
def findIdxGo (p : List Char → Bool) : List Char → Nat → Option Nat
  | [], _ => none
  | c :: rest, i => if p (c :: rest) then some i else findIdxGo p rest (i + 1)

/-- Substring containment test (`pat` occurs contiguously in the list). -/
def containsSub (pat : List Char) : List Char → Bool
  | [] => begins [] pat
  | c :: rest =>
    match begins (c :: rest) pat with
    | true => true
    | false => containsSub pat rest

/-- Python `str.strip()` (ASCII whitespace fragment). -/
def pyStrip (l : List Char) : List Char :=
  ((l.dropWhile (fun c => pyIsSpaceChar c)).reverse.dropWhile
    (fun c => pyIsSpaceChar c)).reverse

/-- Python `str.title` worker: a letter is upper-cased when the previous
character is not a letter, lower-cased otherwise. -/
def pyTitleGo : Bool → List Char → List Char
  | _, [] => []
  | prevAlpha, c :: cs =>
    (if pyIsAlpha c then (if prevAlpha then pyLowerChar c else pyUpperChar c) else c)
      :: pyTitleGo (pyIsAlpha c) cs

/-- Python `str.title` (ASCII fragment). -/
def pyTitle (s : String) : String := String.mk (pyTitleGo false s.data)

/-! ## The three patterns of `extract_section`
(src/commands/pdf-to-markdown.py lines 164-178), hand-compiled.

`cl` is the lowercased text, `kw` the keyword, indices are absolute
positions into the text.  Each `p?Go` scans start positions left to right,
mirroring `re.search`'s leftmost-match rule; at a fixed start position each
pattern matches deterministically (lazy quantifiers take the first
closing position that lets the rest of the pattern succeed, and the greedy
runs `\s*` / `[-=]+` can only hand over at the end of their maximal run
because the following literal is never in their character class). -/

/-- Pattern 1 as actually compiled: `#(1, 3)\s*kw.*?\n(.*?)(?=\n#(1, 3)|\Z)`.
A full match at this start needs `#`, the literal `1, 3`, optional
whitespace, the keyword, and some later newline (the trailing `(.*?)` with
its `\Z` alternative then always closes).  Group 1 is the `(1, 3)` group. -/
def p1At (kw : List Char) : List Char → Bool
  | '#' :: rest =>
    if begins rest ['1', ',', ' ', '3'] then
      let afterLit := rest.drop 4
      let w := wsRun afterLit
      let afterWs := afterLit.drop w
      if begins afterWs kw then hasNl (afterWs.drop kw.length)
      else false
    else false
  | _ => false

/-- Scan for pattern 1; on success the span of group 1 (the `(1, 3)`
literal) is `(i+1, i+5)` where `i` is the match start. -/
def p1Go (kw : List Char) : List Char → Nat → Option (Nat × Nat)
  | [], _ => none
  | c :: rest, i =>
    if p1At kw (c :: rest) then some (i + 1, i + 5)
    else p1Go kw rest (i + 1)

/-- Separator of pattern 2: a newline, a nonempty `-`/`=` run, a newline. -/
def p2SepAt : List Char → Bool
  | '\n' :: rest =>
    let m := dashRun rest
    m != 0 && begins (rest.drop m) ['\n']
  | _ => false

/-- Lookahead of pattern 2: `\n\w+.*?\n[-=]+` (or end of input, handled by
the caller falling back to the text length). -/
def lookP2At : List Char → Bool
  | '\n' :: c :: rest => pyIsWordChar c && hasNlDash rest
  | _ => false

/-- Pattern 2 at a fixed start `i` with suffix `s = cl.drop i`:
`\n{kw}.*?\n[-=]+\n(.*?)(?=\n\w+.*?\n[-=]+|\Z)`. -/
def p2At (cl : List Char) (kw : List Char) (i : Nat) (s : List Char) :
    Option (Nat × Nat) :=
  match s with
  | '\n' :: rest =>
    if begins rest kw then
      let k := i + 1 + kw.length
      match findIdxGo p2SepAt (cl.drop k) k with
      | some q =>
        let m := dashRun (cl.drop (q + 1))
        let g1s := q + 2 + m
        let g1e := (findIdxGo lookP2At (cl.drop g1s) g1s).getD cl.length
        some (g1s, g1e)
      | none => none
    else none
  | _ => none

/-- Scan for pattern 2. -/
def p2Go (cl : List Char) (kw : List Char) : List Char → Nat → Option (Nat × Nat)
  | [], _ => none
  | c :: rest, i =>
    match p2At cl kw i (c :: rest) with
    | some r => some r
    | none => p2Go cl kw rest (i + 1)

/-- Separator of pattern 3: a colon followed by a newline. -/
def p3SepAt : List Char → Bool
  | ':' :: '\n' :: _ => true
  | _ => false

/-- Lookahead of pattern 3: `\n\w+.*?:` (or end of input). -/
def lookP3At : List Char → Bool
  | '\n' :: c :: rest => pyIsWordChar c && hasColon rest
  | _ => false

/-- Pattern 3 at a fixed start `i` with suffix `s = cl.drop i`:
`\n{kw}.*?:\n(.*?)(?=\n\w+.*?:|\Z)`. -/
def p3At (cl : List Char) (kw : List Char) (i : Nat) (s : List Char) :
    Option (Nat × Nat) :=
  match s with
  | '\n' :: rest =>
    if begins rest kw then
      let k := i + 1 + kw.length
      match findIdxGo p3SepAt (cl.drop k) k with
      | some q =>
        let g1s := q + 2
        let g1e := (findIdxGo lookP3At (cl.drop g1s) g1s).getD cl.length
        some (g1s, g1e)
      | none => none
    else none
  | _ => none

/-- Scan for pattern 3. -/
def p3Go (cl : List Char) (kw : List Char) : List Char → Nat → Option (Nat × Nat)
  | [], _ => none
  | c :: rest, i =>
    match p3At cl kw i (c :: rest) with
    | some r => some r
    | none => p3Go cl kw rest (i + 1)

/-- For one keyword, try the three patterns in the order of the `patterns`
list of `extract_section` and return the group-1 span of the first match. -/
def tryKw (cl : List Char) (kw : List Char) : Option (Nat × Nat) :=
  match p1Go kw cl 0 with
  | some r => some r
  | none =>
    match p2Go cl kw cl 0 with
    | some r => some r
    | none => p3Go cl kw cl 0

/-- Keyword loop of `extract_section`: first keyword (in list order) with a
matching pattern wins; the span is cut from the original-case text and
stripped. -/
def extractGo (cs cl : List Char) : List (List Char) → String
  | [] => ""
  | kw :: rest =>
    match tryKw cl kw with
    | some (s, e) => String.mk (pyStrip ((cs.drop s).take (e - s)))
    | none => extractGo cs cl rest

/-- `extract_section(content, keywords)` from
src/commands/pdf-to-markdown.py lines 149-180. -/
def extract_section (content : String) (keywords : List String) : String :=
  let cs := content.data
  let cl := cs.map pyLowerChar
  extractGo cs cl (keywords.map String.data)

/-- The section map produced by `extract_resume_sections`. -/
structure SectionMap where
  contact : String
  experience : String
  education : String
  skills : String
  languages : String
  certifications : String
  projects : String
deriving DecidableEq

/-- Keyword list for the contact section (source line 138). -/
def contactKeywords : List String := ["contact", "contato", "email", "phone"]

/-- Keyword list for the experience section (source line 139). -/
def experienceKeywords : List String :=
  ["experience", "experiência", "work", "trabalho", "professional"]

/-- Keyword list for the education section (source line 140). -/
def educationKeywords : List String :=
  ["education", "educação", "formação", "academic"]

/-- Keyword list for the skills section (source line 141). -/
def skillsKeywords : List String :=
  ["skills", "habilidades", "competências", "technologies", "ferramentas"]

/-- Keyword list for the languages section (source line 142). -/
def languagesKeywords : List String :=
  ["languages", "idiomas", "línguas"]

/-- Keyword list for the certifications section (source line 143). -/
def certificationsKeywords : List String :=
  ["certifications", "certificações", "certificates"]

/-- Keyword list for the projects section (source line 144). -/
def projectsKeywords : List String := ["projects", "projetos", "portfolio"]

/-- `extract_resume_sections` (source lines 124-147) applied to the text of
the markdown file (the file read itself is abstracted away: the function
receives the file's content). -/
def extract_resume_sections (content : String) : SectionMap :=
  ⟨extract_section content contactKeywords,
   extract_section content experienceKeywords,
   extract_section content educationKeywords,
   extract_section content skillsKeywords,
   extract_section content languagesKeywords,
   extract_section content certificationsKeywords,
   extract_section content projectsKeywords⟩

/-! ## The conversion fallback chain (src/commands/pdf-to-markdown.py)

The imports, the file system and stdout are modelled by an explicit
environment.  `pipInstallSucceeds` models the `pip install docling` run in
the `except ImportError` handler of `convert_with_docling`: when it
succeeds the package is installed, so the import on the retry succeeds;
when it fails, `subprocess.check_call` raises `CalledProcessError` inside
the handler and the exception propagates to the caller. -/

/-- Environment of one converter invocation. -/
structure ConvEnv where
  fileExists : Bool
  doclingAvailable : Bool
  doclingRaises : Bool
  doclingMarkdown : String
  pipInstallSucceeds : Bool
  pypdf2Available : Bool
  pypdf2Pages : List String
  pdfplumberAvailable : Bool
  pdfplumberPages : List (Option String)
  pdfPath : String
  outputPathArg : Option String
deriving DecidableEq

/-- How a call to one of the conversion functions ends: a normal return of
the output path, a propagating exception, or a direct `sys.exit`
(`SystemExit` derives `BaseException`, so it is not caught by the
`except Exception` handlers and terminates the process). -/
inductive ConvExit where
  | returned (path : String)
  | raised (msg : String)
  | exitedProcess (code : Nat)
deriving DecidableEq

/-- Result of a conversion function call: its control outcome, the files
written (path, content) in order, and the lines printed. -/
structure ConvOut where
  res : ConvExit
  writes : List (String × String)
  prints : List String
deriving DecidableEq

/-- `Path.with_suffix('.md')`: drop the extension of the final path
component, if any, and append `.md`. -/
def withSuffixMd (p : String) : String :=
  let r := p.data.reverse
  let stem :=
    if (r.takeWhile (fun c => c != '/')).any (fun c => c == '.') then
      (r.dropWhile (fun c => c != '.')).drop 1
    else r
  String.mk stem.reverse ++ ".md"

/-- The output path used by every branch: the explicit second argument, or
the input path with its suffix replaced by `.md`. -/
def resolvedOut (env : ConvEnv) : String :=
  match env.outputPathArg with
  | some o => o
  | none => withSuffixMd env.pdfPath

/-- `fallback_pdf_conversion` (source lines 62-122).  The outer `try`
catches only `ImportError`; in the PyPDF2 branch `open(pdf_path, 'rb')`
raises `FileNotFoundError` when the input is missing and that exception
propagates, as does the one from `pdfplumber.open` in the inner branch. -/
def fallbackPdfConversion (env : ConvEnv) : ConvOut :=
  if env.pypdf2Available then
    if env.fileExists then
      let text := String.join env.pypdf2Pages
      let md := "# Resume - Converted from PDF\n\n" ++ text
      ⟨ConvExit.returned (resolvedOut env), [(resolvedOut env, md)],
        ["Converted with fallback method to: " ++ resolvedOut env]⟩
    else
      ⟨ConvExit.raised ("FileNotFoundError: " ++ env.pdfPath), [], []⟩
  else
    if env.pdfplumberAvailable then
      if env.fileExists then
        let text := String.join (env.pdfplumberPages.map (fun o => o.getD ""))
        let md := "# Resume - Converted from PDF\n\n" ++ text
        ⟨ConvExit.returned (resolvedOut env), [(resolvedOut env, md)],
          ["Converted with pdfplumber to: " ++ resolvedOut env]⟩
      else
        ⟨ConvExit.raised ("FileNotFoundError: " ++ env.pdfPath), [], []⟩
    else
      ⟨ConvExit.exitedProcess 1, [],
        ["No PDF processing library available",
         "Please install one of: docling, PyPDF2, or pdfplumber",
         "Run: pip install docling"]⟩

/-- Body of the `try` of `convert_with_docling` after a successful
`from docling import DocumentConverter` (source lines 25-47), together
with the `except Exception` handler (lines 57-60): a missing input file
raises `FileNotFoundError` before the "Converting" print, a runtime
conversion failure raises after it, and both are caught by
`except Exception` which prints and delegates to the fallback. -/
def doclingImported (env : ConvEnv) : ConvOut :=
  if env.fileExists then
    if env.doclingRaises then
      let fb := fallbackPdfConversion env
      ⟨fb.res, fb.writes,
        ["Converting " ++ env.pdfPath ++ " with Docling...",
         "Error with Docling conversion: docling error",
         "Falling back to alternative method..."] ++ fb.prints⟩
    else
      ⟨ConvExit.returned (resolvedOut env),
        [(resolvedOut env, env.doclingMarkdown)],
        ["Converting " ++ env.pdfPath ++ " with Docling...",
         "Successfully converted to: " ++ resolvedOut env]⟩
  else
    let fb := fallbackPdfConversion env
    ⟨fb.res, fb.writes,
      ["Error with Docling conversion: PDF file not found: " ++ env.pdfPath,
       "Falling back to alternative method..."] ++ fb.prints⟩

/-- `convert_with_docling` (source lines 11-60).  When the import fails the
`except ImportError` handler prints, runs `pip install docling` and
retries; a failing install raises `CalledProcessError` out of the handler
(the handler is not protected by its own `try`), and a successful install
makes the import succeed on the retry. -/
def convertWithDocling (env : ConvEnv) : ConvOut :=
  if env.doclingAvailable then
    doclingImported env
  else
    if env.pipInstallSucceeds then
      let r := doclingImported env
      ⟨r.res, r.writes, ["Docling not installed. Installing..."] ++ r.prints⟩
    else
      ⟨ConvExit.raised "CalledProcessError: pip install docling", [],
        ["Docling not installed. Installing..."]⟩

/-- Final state of a whole `main` run of the converter script. -/
structure MainOut where
  exitCode : Nat
  writes : List (String × String)
  prints : List String
deriving DecidableEq

/-- Content of the first write to `p`, used to model `main` reading back
the markdown file it just produced. -/
def lookupWrite (ws : List (String × String)) (p : String) : Option String :=
  (ws.find? (fun w => w.1 == p)).map (fun w => w.2)

/-- The seven `sections.items()` of `extract_resume_sections`, in
dictionary insertion order (source lines 137-145). -/
def sectionItems (m : SectionMap) : List (String × String) :=
  [("contact", m.contact), ("experience", m.experience),
   ("education", m.education), ("skills", m.skills),
   ("languages", m.languages), ("certifications", m.certifications),
   ("projects", m.projects)]

/-- `content[:50] + "..." if len(content) > 50 else content`. -/
def previewOf (c : String) : String :=
  if c.data.length > 50 then String.mk (c.data.take 50) ++ "..." else c

/-- The per-section preview lines printed by `main` (source lines 199-203);
empty sections are skipped (`if content:`). -/
def sectionPrints (m : SectionMap) : List String :=
  (sectionItems m).filterMap
    (fun e => if e.2 = "" then none
              else some ("  - " ++ e.1 ++ ": " ++ previewOf e.2))

/-- `main` (source lines 182-207) with a valid argument count: convert,
then extract and print the sections.  `except Exception` turns a
propagating exception into exit code 1; a `sys.exit` from the callees
passes through. -/
def runMain (env : ConvEnv) : MainOut :=
  let o := convertWithDocling env
  match o.res with
  | ConvExit.returned path =>
    let content := (lookupWrite o.writes path).getD ""
    let secs := sectionPrints (extract_resume_sections content)
    ⟨0, o.writes, o.prints ++ ["Extracted sections:"] ++ secs⟩
  | ConvExit.raised msg => ⟨1, o.writes, o.prints ++ ["Error: " ++ msg]⟩
  | ConvExit.exitedProcess c => ⟨c, o.writes, o.prints⟩

/-- The environment after a successful `pip install docling`: identical,
except that the docling import now succeeds. -/
def withDocling (env : ConvEnv) : ConvEnv :=
  ⟨env.fileExists, true, env.doclingRaises, env.doclingMarkdown,
   env.pipInstallSucceeds, env.pypdf2Available, env.pypdf2Pages,
   env.pdfplumberAvailable, env.pdfplumberPages, env.pdfPath,
   env.outputPathArg⟩

/-! ## The template stamper
(src/skills/async-testing-expert/generate_test_template.py)

The file system is an association list from path to content (first entry
wins, as in `fsGet`); `userInput` is the operator's answer to the
overwrite prompt.  Command-line parsing is out of scope; `generateTest`
models the `generate_test` function itself. -/

/-- `DAO_TEMPLATE` (source text, verbatim: doubled braces are the
literal braces of `str.format`, single braces are its fields). -/
def DAO_TEMPLATE : String :=
  "\"\"\"Tests for {module_title}DAO database access layer.\"\"\"\n"
  ++ "from datetime import datetime\n"
  ++ "import pytest\n"
  ++ "from src.domain.dal.dao.{module} import {module_title}DAO\n"
  ++ "from src.domain.dal.dao.exception import DAOException\n"
  ++ "from src.domain.dto.{module} import {module_title}DTO\n"
  ++ "from tests.fakes import FakeConnection, FakeRecord\n"
  ++ "\n"
  ++ "\n"
  ++ "@pytest.mark.asyncio\n"
  ++ "async def test_create_calls_execute(faker):\n"
  ++ "    \"\"\"Test that create method calls execute with correct SQL and parameters.\"\"\"\n"
  ++ "    # Arrange: Prepare test data\n"
  ++ "    create_dto = {module_title}DTO.Create(\n"
  ++ "        # TODO: Add required fields here\n"
  ++ "    )\n"
  ++ "    conn = FakeConnection()\n"
  ++ "\n"
  ++ "    # Act: Call DAO method with __wrapped__\n"
  ++ "    await {module_title}DAO.create.__wrapped__(conn, create_dto)\n"
  ++ "\n"
  ++ "    # Assert: Verify execute was called\n"
  ++ "    assert len(conn.execute_calls) == 1\n"
  ++ "    stmt, params = conn.execute_calls[0]\n"
  ++ "    assert \x27INSERT INTO {table_name}\x27 in stmt\n"
  ++ "    assert isinstance(params, list)\n"
  ++ "\n"
  ++ "\n"
  ++ "@pytest.mark.asyncio\n"
  ++ "async def test_fetch_by_id_success(faker):\n"
  ++ "    \"\"\"Test that fetch_by_id returns properly formatted DTO.\"\"\"\n"
  ++ "    # Arrange\n"
  ++ "    fake_row = \x7b\x7b\n"
  ++ "        \x27id\x27: faker.random_int(1, 100),\n"
  ++ "        # TODO: Add other fields\n"
  ++ "    \x7d\x7d\n"
  ++ "    conn = FakeConnection()\n"
  ++ "    conn.fetch_row_return = FakeRecord(fake_row)\n"
  ++ "\n"
  ++ "    # Act\n"
  ++ "    result = await {module_title}DAO.fetch_by_id.__wrapped__(conn, fake_row[\x27id\x27])\n"
  ++ "\n"
  ++ "    # Assert\n"
  ++ "    assert result.id == fake_row[\x27id\x27]\n"
  ++ "    assert isinstance(result, {module_title}DTO.Read)\n"
  ++ "\n"
  ++ "\n"
  ++ "@pytest.mark.asyncio\n"
  ++ "async def test_fetch_by_id_error_maps_to_500():\n"
  ++ "    \"\"\"Test that database errors are properly handled.\"\"\"\n"
  ++ "    conn = FakeConnection()\n"
  ++ "\n"
  ++ "    async def broken_fetch_row(stmt, parameters=None):\n"
  ++ "        raise Exception(\x27Database connection lost\x27)\n"
  ++ "\n"
  ++ "    conn.fetch_row = broken_fetch_row\n"
  ++ "\n"
  ++ "    with pytest.raises(DAOException) as exc:\n"
  ++ "        await {module_title}DAO.fetch_by_id.__wrapped__(conn, 1)\n"
  ++ "\n"
  ++ "    err = exc.value\n"
  ++ "    assert err.status_code == 500\n"
  ++ "\n"
  ++ "\n"
  ++ "@pytest.mark.asyncio\n"
  ++ "async def test_update_calls_execute_with_correct_params(faker):\n"
  ++ "    \"\"\"Test that update method executes update query with correct parameters.\"\"\"\n"
  ++ "    # Arrange\n"
  ++ "    update_dto = {module_title}DTO.Update(\n"
  ++ "        # TODO: Add update fields\n"
  ++ "    )\n"
  ++ "    conn = FakeConnection()\n"
  ++ "\n"
  ++ "    # Act\n"
  ++ "    await {module_title}DAO.update.__wrapped__(conn, 1, update_dto)\n"
  ++ "\n"
  ++ "    # Assert\n"
  ++ "    assert len(conn.execute_calls) == 1\n"
  ++ "    stmt, params = conn.execute_calls[0]\n"
  ++ "    assert \x27UPDATE {table_name}\x27 in stmt\n"
  ++ "\n"
  ++ "\n"
  ++ "@pytest.mark.asyncio\n"
  ++ "async def test_delete_sets_inactive_flag(faker):\n"
  ++ "    \"\"\"Test that delete method sets fg_ativo to false.\"\"\"\n"
  ++ "    # Arrange\n"
  ++ "    conn = FakeConnection()\n"
  ++ "\n"
  ++ "    # Act\n"
  ++ "    await {module_title}DAO.delete.__wrapped__(conn, 1)\n"
  ++ "\n"
  ++ "    # Assert\n"
  ++ "    assert len(conn.execute_calls) == 1\n"
  ++ "    stmt, params = conn.execute_calls[0]\n"
  ++ "    assert \x27UPDATE {table_name}\x27 in stmt\n"
  ++ "    assert \x27fg_ativo\x27 in stmt.lower()\n"
  ++ "\n"
  ++ "\n"
  ++ "# TODO: Add more test cases:\n"
  ++ "# - test_read_all_returns_list\n"
  ++ "# - test_read_with_filters\n"
  ++ "# - test_batch_operations\n"
  ++ "# - test_transaction_rollback_on_error\n"

/-- `SERVICE_TEMPLATE` (source text, verbatim: doubled braces are the
literal braces of `str.format`, single braces are its fields). -/
def SERVICE_TEMPLATE : String :=
  "\"\"\"Tests for {module_title}Service business logic layer.\"\"\"\n"
  ++ "from datetime import datetime\n"
  ++ "import pytest\n"
  ++ "from src.domain.service.{module} import {module_title}Service\n"
  ++ "from src.domain.dto.{module} import {module_title}DTO\n"
  ++ "\n"
  ++ "\n"
  ++ "class Dummy{module_title}DAO:\n"
  ++ "    \"\"\"Mock DAO for service testing.\"\"\"\n"
  ++ "    def __init__(self):\n"
  ++ "        self.create_called = False\n"
  ++ "        self.fetch_called = False\n"
  ++ "        self.update_called = False\n"
  ++ "\n"
  ++ "    async def create(self, dto):\n"
  ++ "        self.create_called = dto\n"
  ++ "        return 1\n"
  ++ "\n"
  ++ "    async def fetch_by_id(self, id_):\n"
  ++ "        self.fetch_called = id_\n"
  ++ "        return {module_title}DTO.Read(\n"
  ++ "            id=id_,\n"
  ++ "            # TODO: Add other required fields\n"
  ++ "        )\n"
  ++ "\n"
  ++ "    async def update(self, id_, dto):\n"
  ++ "        self.update_called = (id_, dto)\n"
  ++ "\n"
  ++ "\n"
  ++ "class DummyAdapter:\n"
  ++ "    \"\"\"Mock adapter for external service calls.\"\"\"\n"
  ++ "    def __init__(self):\n"
  ++ "        self.called = False\n"
  ++ "\n"
  ++ "    async def some_method(self, *args, **kwargs):\n"
  ++ "        self.called = True\n"
  ++ "        return []\n"
  ++ "\n"
  ++ "\n"
  ++ "@pytest.mark.asyncio\n"
  ++ "async def test_service_create_delegates_to_dao(faker):\n"
  ++ "    \"\"\"Test that service create method properly delegates to DAO.\"\"\"\n"
  ++ "    # Arrange\n"
  ++ "    dao = Dummy{module_title}DAO()\n"
  ++ "    adapter = DummyAdapter()\n"
  ++ "    service = {module_title}Service(\n"
  ++ "        {module}_dao=dao,\n"
  ++ "        adapter=adapter\n"
  ++ "    )\n"
  ++ "\n"
  ++ "    dto = {module_title}DTO.Create(\n"
  ++ "        # TODO: Add required fields\n"
  ++ "    )\n"
  ++ "\n"
  ++ "    # Act\n"
  ++ "    result = await service.create(dto)\n"
  ++ "\n"
  ++ "    # Assert\n"
  ++ "    assert dao.create_called == dto\n"
  ++ "    assert result == 1\n"
  ++ "\n"
  ++ "\n"
  ++ "@pytest.mark.asyncio\n"
  ++ "async def test_service_coordinates_multiple_daos():\n"
  ++ "    \"\"\"Test that service properly coordinates between multiple DAOs.\"\"\"\n"
  ++ "    # Arrange\n"
  ++ "    dao = Dummy{module_title}DAO()\n"
  ++ "    adapter = DummyAdapter()\n"
  ++ "    service = {module_title}Service(\n"
  ++ "        {module}_dao=dao,\n"
  ++ "        adapter=adapter\n"
  ++ "    )\n"
  ++ "\n"
  ++ "    # Act\n"
  ++ "    result = await service.get_by_id(1)\n"
  ++ "\n"
  ++ "    # Assert\n"
  ++ "    assert dao.fetch_called == 1\n"
  ++ "    assert isinstance(result, {module_title}DTO.Read)\n"
  ++ "\n"
  ++ "\n"
  ++ "@pytest.mark.asyncio\n"
  ++ "async def test_service_validates_business_rules(faker):\n"
  ++ "    \"\"\"Test that service enforces business rule validation.\"\"\"\n"
  ++ "    # Arrange\n"
  ++ "    dao = Dummy{module_title}DAO()\n"
  ++ "    service = {module_title}Service({module}_dao=dao, adapter=None)\n"
  ++ "\n"
  ++ "    # TODO: Create invalid DTO that violates business rules\n"
  ++ "\n"
  ++ "    # Act & Assert\n"
  ++ "    with pytest.raises(Exception):  # TODO: Use specific exception\n"
  ++ "        await service.create(invalid_dto)\n"
  ++ "\n"
  ++ "\n"
  ++ "# TODO: Add more test cases:\n"
  ++ "# - test_service_handles_dao_exceptions\n"
  ++ "# - test_service_transforms_dtos_correctly\n"
  ++ "# - test_service_calls_adapter_when_needed\n"

/-- `ROUTER_TEMPLATE` (source text, verbatim: doubled braces are the
literal braces of `str.format`, single braces are its fields). -/
def ROUTER_TEMPLATE : String :=
  "\"\"\"Tests for {module_title} API endpoints.\"\"\"\n"
  ++ "import pytest\n"
  ++ "from httpx import AsyncClient\n"
  ++ "\n"
  ++ "\n"
  ++ "@pytest.mark.asyncio\n"
  ++ "async def test_get_{module}_endpoint(async_client: AsyncClient, monkeypatch):\n"
  ++ "    \"\"\"Test GET /{module}s endpoint returns proper response.\"\"\"\n"
  ++ "    # Mock the service layer\n"
  ++ "    async def mock_get_all():\n"
  ++ "        return [\x7b\x7b\n"
  ++ "            \x27id\x27: 1,\n"
  ++ "            # TODO: Add response fields\n"
  ++ "        \x7d\x7d]\n"
  ++ "\n"
  ++ "    monkeypatch.setattr(\n"
  ++ "        \x27src.api.path.{module}.{module_title}Service.get_all\x27,\n"
  ++ "        mock_get_all\n"
  ++ "    )\n"
  ++ "\n"
  ++ "    # Act\n"
  ++ "    response = await async_client.get(\x27/{module}s\x27)\n"
  ++ "\n"
  ++ "    # Assert\n"
  ++ "    assert response.status_code == 200\n"
  ++ "    data = response.json()\n"
  ++ "    assert len(data) == 1\n"
  ++ "\n"
  ++ "\n"
  ++ "@pytest.mark.asyncio\n"
  ++ "async def test_get_{module}_by_id_endpoint(async_client: AsyncClient, monkeypatch):\n"
  ++ "    \"\"\"Test GET /{module}s/\x7b\x7bid\x7d\x7d endpoint returns single item.\"\"\"\n"
  ++ "    # Mock service\n"
  ++ "    async def mock_get_by_id(id_):\n"
  ++ "        return \x7b\x7b\n"
  ++ "            \x27id\x27: id_,\n"
  ++ "            # TODO: Add response fields\n"
  ++ "        \x7d\x7d\n"
  ++ "\n"
  ++ "    monkeypatch.setattr(\n"
  ++ "        \x27src.api.path.{module}.{module_title}Service.get_by_id\x27,\n"
  ++ "        mock_get_by_id\n"
  ++ "    )\n"
  ++ "\n"
  ++ "    # Act\n"
  ++ "    response = await async_client.get(\x27/{module}s/1\x27)\n"
  ++ "\n"
  ++ "    # Assert\n"
  ++ "    assert response.status_code == 200\n"
  ++ "    data = response.json()\n"
  ++ "    assert data[\x27id\x27] == 1\n"
  ++ "\n"
  ++ "\n"
  ++ "@pytest.mark.asyncio\n"
  ++ "async def test_create_{module}_endpoint(async_client: AsyncClient, monkeypatch):\n"
  ++ "    \"\"\"Test POST /{module}s endpoint creates new item.\"\"\"\n"
  ++ "    # Mock service\n"
  ++ "    async def mock_create(dto):\n"
  ++ "        return 1\n"
  ++ "\n"
  ++ "    monkeypatch.setattr(\n"
  ++ "        \x27src.api.path.{module}.{module_title}Service.create\x27,\n"
  ++ "        mock_create\n"
  ++ "    )\n"
  ++ "\n"
  ++ "    # Act\n"
  ++ "    response = await async_client.post(\n"
  ++ "        \x27/{module}s\x27,\n"
  ++ "        json=\x7b\x7b\n"
  ++ "            # TODO: Add request body fields\n"
  ++ "        \x7d\x7d\n"
  ++ "    )\n"
  ++ "\n"
  ++ "    # Assert\n"
  ++ "    assert response.status_code == 201\n"
  ++ "\n"
  ++ "\n"
  ++ "@pytest.mark.asyncio\n"
  ++ "async def test_update_{module}_endpoint(async_client: AsyncClient, monkeypatch):\n"
  ++ "    \"\"\"Test PUT /{module}s/\x7b\x7bid\x7d\x7d endpoint updates item.\"\"\"\n"
  ++ "    # Mock service\n"
  ++ "    async def mock_update(id_, dto):\n"
  ++ "        return None\n"
  ++ "\n"
  ++ "    monkeypatch.setattr(\n"
  ++ "        \x27src.api.path.{module}.{module_title}Service.update\x27,\n"
  ++ "        mock_update\n"
  ++ "    )\n"
  ++ "\n"
  ++ "    # Act\n"
  ++ "    response = await async_client.put(\n"
  ++ "        \x27/{module}s/1\x27,\n"
  ++ "        json=\x7b\x7b\n"
  ++ "            # TODO: Add update fields\n"
  ++ "        \x7d\x7d\n"
  ++ "    )\n"
  ++ "\n"
  ++ "    # Assert\n"
  ++ "    assert response.status_code == 200\n"
  ++ "\n"
  ++ "\n"
  ++ "@pytest.mark.asyncio\n"
  ++ "async def test_delete_{module}_endpoint(async_client: AsyncClient, monkeypatch):\n"
  ++ "    \"\"\"Test DELETE /{module}s/\x7b\x7bid\x7d\x7d endpoint deletes item.\"\"\"\n"
  ++ "    # Mock service\n"
  ++ "    async def mock_delete(id_):\n"
  ++ "        return None\n"
  ++ "\n"
  ++ "    monkeypatch.setattr(\n"
  ++ "        \x27src.api.path.{module}.{module_title}Service.delete\x27,\n"
  ++ "        mock_delete\n"
  ++ "    )\n"
  ++ "\n"
  ++ "    # Act\n"
  ++ "    response = await async_client.delete(\x27/{module}s/1\x27)\n"
  ++ "\n"
  ++ "    # Assert\n"
  ++ "    assert response.status_code == 204\n"
  ++ "\n"
  ++ "\n"
  ++ "# TODO: Add more test cases:\n"
  ++ "# - test_validation_errors_return_422\n"
  ++ "# - test_not_found_returns_404\n"
  ++ "# - test_authentication_required\n"
  ++ "# - test_permission_checks\n"

/-- Keys of the `templates` dict, in insertion order (source lines
358-362); `', '.join(templates.keys())` is "dao, service, router". -/
def validLayers : List String := ["dao", "service", "router"]

/-- The `templates` dict lookup for a valid layer. -/
def layerTemplate (layer : String) : String :=
  if layer = "dao" then DAO_TEMPLATE
  else if layer = "service" then SERVICE_TEMPLATE
  else ROUTER_TEMPLATE

/-- Value of a `str.format` field.  The three templates only ever use the
fields `module`, `module_title` and `table_name` (an unknown field would
raise `KeyError` in Python; that branch is unreachable here and is mapped
to the field text itself). -/
def fieldVal (module moduleTitle tableName : String) (f : List Char) : List Char :=
  if f = "module".data then module.data
  else if f = "module_title".data then moduleTitle.data
  else if f = "table_name".data then tableName.data
  else '\x7b' :: f ++ ['\x7d']

/-- One pass of `str.format`: `{{`/`}}` become literal braces, `{field}` is
substituted (substituted text is not rescanned), other characters are
copied.  `some acc` is the inside-a-field mode carrying the reversed field
name read so far; `none` is the copying mode.  An unterminated field would
raise `ValueError` in Python; it is unreachable in these templates and is
mapped to the text read so far. -/
def pyFormatGo (module moduleTitle tableName : String) :
    Option (List Char) → List Char → List Char
  | none, [] => []
  | none, '\x7b' :: '\x7b' :: rest =>
    '\x7b' :: pyFormatGo module moduleTitle tableName none rest
  | none, '\x7d' :: '\x7d' :: rest =>
    '\x7d' :: pyFormatGo module moduleTitle tableName none rest
  | none, '\x7b' :: rest => pyFormatGo module moduleTitle tableName (some []) rest
  | none, c :: rest => c :: pyFormatGo module moduleTitle tableName none rest
  | some acc, [] => '\x7b' :: acc.reverse
  | some acc, '\x7d' :: rest =>
    fieldVal module moduleTitle tableName acc.reverse
      ++ pyFormatGo module moduleTitle tableName none rest
  | some acc, c :: rest =>
    pyFormatGo module moduleTitle tableName (some (c :: acc)) rest

/-- `template.format(module=..., module_title=..., table_name=...)`
(source lines 369-373). -/
def pyFormat (module moduleTitle tableName : String) (l : List Char) : List Char :=
  pyFormatGo module moduleTitle tableName none l

/-- Environment of one stamper invocation. -/
structure StampEnv where
  fs : List (String × String)
  userInput : String
deriving DecidableEq

/-- Result of one stamper invocation: `exit = some c` for `sys.exit(c)`,
`none` for a normal return (process exit code 0); the final file system;
the writes performed; the lines printed. -/
structure StampOut where
  exit : Option Nat
  fs : List (String × String)
  writes : List (String × String)
  prints : List String
deriving DecidableEq

/-- File-system lookup (first matching entry). -/
def fsGet (fs : List (String × String)) (p : String) : Option String :=
  (fs.find? (fun e => e.1 == p)).map (fun e => e.2)

/-- `Path(output_dir) / f'test_{module}_{layer}.py'` (source line 375). -/
def stampPath (module layer outputDir : String) : String :=
  outputDir ++ "/test_" ++ module ++ "_" ++ layer ++ ".py"

/-- Process exit code of a stamper run (normal return gives 0). -/
def exitCodeOf (o : StampOut) : Nat := o.exit.getD 0

/-- `generate_test(module, layer, output_dir)` (source lines 353-391). -/
def generateTest (module layer outputDir : String) (env : StampEnv) : StampOut :=
  let moduleTitle := String.mk ((pyTitle module).data.filter (fun c => c != '_'))
  let tableName := pyLower module
  if validLayers.contains layer then
    let content := String.mk (pyFormat module moduleTitle tableName
      (layerTemplate layer).data)
    let outputPath := stampPath module layer outputDir
    if (fsGet env.fs outputPath).isSome then
      if pyLower env.userInput = "y" then
        ⟨none, (outputPath, content) :: env.fs, [(outputPath, content)],
          ["Warning: " ++ outputPath ++ " already exists. Overwrite? (y/n): ",
           "Generated test file: " ++ outputPath]⟩
      else
        ⟨none, env.fs, [],
          ["Warning: " ++ outputPath ++ " already exists. Overwrite? (y/n): ",
           "Aborted."]⟩
    else
      ⟨none, (outputPath, content) :: env.fs, [(outputPath, content)],
        ["Generated test file: " ++ outputPath]⟩
  else
    ⟨some 1, env.fs, [],
      ["Error: Unknown layer \x27" ++ layer
        ++ "\x27. Choose from: dao, service, router"]⟩

/-! ## Concrete inputs and environments used by the theorems below -/

/-- An input satisfying the premise of the experience-section claim: a
Markdown heading line followed by body text up to end of input. -/
def c1Input : String := "## Experience\nBuilt things at Acme\n"

/-- An input containing both a Markdown-heading form and a colon form of
the `skills` keyword, with different bodies. -/
def c2Input : String := "intro\n## Skills\nPython and SQL\n\nskills:\nJava\n"

/-- Docling import fails, `pip install` fails, but PyPDF2 is available. -/
def c3Env : ConvEnv :=
  ⟨true, false, false, "MD", false, true, ["hello"], false, [], "cv.pdf", none⟩

/-- Docling import fails, `pip install` succeeds. -/
def c3EnvB : ConvEnv :=
  ⟨true, false, false, "MD", true, true, ["x"], false, [], "cv.pdf", none⟩

/-- All three libraries unavailable and `pip install` fails. -/
def c5Env : ConvEnv :=
  ⟨true, false, false, "MD", false, false, [], false, [], "cv.pdf", none⟩

/-- The input file does not exist (all libraries available). -/
def c6Env : ConvEnv :=
  ⟨false, true, false, "MD", true, true, ["p"], true, [some "q"], "cv.pdf", none⟩

/-- Docling imports but raises during conversion; PyPDF2 is available. -/
def c7Env : ConvEnv :=
  ⟨true, true, true, "MD", true, true, ["page one ", "page two"], false, [],
   "cv.pdf", none⟩

/-- Empty file system, empty operator input. -/
def c9Env : StampEnv := ⟨[], ""⟩

/-- Output file exists; the operator answers "yes" (declining: only "y",
after lowercasing, accepts). -/
def c8EnvS : StampEnv := ⟨[("tests/test_user_dao.py", "OLD")], "yes"⟩

/-- Output file exists; the operator answers "Y". -/
def c10EnvS : StampEnv := ⟨[("tests/test_user_dao.py", "OLD")], "Y"⟩

/-! ## Theorems for the claims -/

/-- C1: the claim states that for input text containing a Markdown heading
such as `## Experience` followed by body text, `extract_sections` returns
that body (trimmed) under the `experience` key.  Evaluating the code's
extractor on such an input yields the empty string instead: the compiled
first pattern is `#(1, 3)\s*experience...` (the f-string swallowed the
`{1,3}` quantifier), which cannot match `## experience`, and the other two
patterns require the keyword at the start of a line.  This theorem
evaluates the code at the failing input. -/
theorem c1_markdown_heading_not_extracted :
    (extract_resume_sections c1Input).experience = "" := by decide

/-- C2: the claim states that when both a Markdown-heading form and a
colon form of the same keyword are present, the Markdown-heading span is
returned.  Evaluating the code on such an input returns the colon-form
body `"Java"` (the Markdown-heading body is `"Python and SQL"`): the
broken first pattern never matches, so the colon pattern wins.  This
theorem evaluates the code at the failing input. -/
theorem c2_colon_form_wins :
    extract_section c2Input skillsKeywords = "Java" := by decide

/-- C3 counterexample: the claim states that when the primary
capability's import fails the converter falls through to the next
fallback and is fatal only when all fallbacks are exhausted.  In `c3Env` the docling import
fails, the automatic `pip install` fails, and PyPDF2 (the first fallback)
is available, yet the run is fatal (exit 1) and nothing is written: the
`CalledProcessError` from the install propagates past every fallback. -/
theorem c3_import_failure_is_fatal_despite_fallback :
    c3Env.doclingAvailable = false ∧ c3Env.pypdf2Available = true ∧
    (runMain c3Env).exitCode = 1 ∧ (runMain c3Env).writes = [] := by decide

/-- C3 amended: when the primary capability's import fails, the converter
attempts to install it and retries; a successful install behaves exactly
like an invocation with the capability available, and a failed install is
fatal (exit 1, nothing written) without reaching the fallbacks. -/
theorem c3_import_failure_installs_or_dies (env : ConvEnv)
    (h : env.doclingAvailable = false) :
    (env.pipInstallSucceeds = true →
      (runMain env).exitCode = (runMain (withDocling env)).exitCode ∧
      (runMain env).writes = (runMain (withDocling env)).writes) ∧
    (env.pipInstallSucceeds = false →
      (runMain env).exitCode = 1 ∧ (runMain env).writes = []) := by
  constructor
  · intro hp
    cases hf : env.fileExists <;> cases hr : env.doclingRaises <;>
      cases h2 : env.pypdf2Available <;> cases h3 : env.pdfplumberAvailable <;>
        simp [runMain, convertWithDocling, doclingImported,
          fallbackPdfConversion, withDocling, resolvedOut, h, hp, hf, hr, h2, h3]
  · intro hp
    simp [runMain, convertWithDocling, h, hp]

/-- C3 amended, witness: both branches of the amended statement
instantiated at concrete environments. -/
theorem c3_import_failure_installs_or_dies_witness :
    ((runMain c3EnvB).exitCode = (runMain (withDocling c3EnvB)).exitCode ∧
     (runMain c3EnvB).writes = (runMain (withDocling c3EnvB)).writes) ∧
    ((runMain c3Env).exitCode = 1 ∧ (runMain c3Env).writes = []) :=
  ⟨(c3_import_failure_installs_or_dies c3EnvB rfl).1 rfl,
   (c3_import_failure_installs_or_dies c3Env rfl).2 rfl⟩

/-- C4: calling the stamper with a layer outside dao/service/router exits
with code 1, prints the error message listing the valid choices, writes
nothing, and leaves the file system unchanged. -/
theorem c4_invalid_layer_exits_one (module layer outputDir : String)
    (env : StampEnv) (h : layer ∉ validLayers) :
    generateTest module layer outputDir env =
      ⟨some 1, env.fs, [],
        ["Error: Unknown layer \x27" ++ layer
          ++ "\x27. Choose from: dao, service, router"]⟩ := by
  simp [generateTest, h]

/-- C4 witness: the invalid layer "unknown". -/
theorem c4_invalid_layer_exits_one_witness :
    generateTest "user" "unknown" "tests" c9Env =
      ⟨some 1, c9Env.fs, [],
        ["Error: Unknown layer \x27" ++ "unknown"
          ++ "\x27. Choose from: dao, service, router"]⟩ :=
  c4_invalid_layer_exits_one "user" "unknown" "tests" c9Env (by decide)

/-- C5 counterexample: the claim states that with all three capabilities
unavailable the process exits non-zero after printing the message
instructing the operator to install one of the three capabilities.  In
`c5Env` every import fails (and so does the automatic install); the
process does exit 1 with no file created, but the install-instruction
message is never printed - the `CalledProcessError` from the install
aborts the run before `fallback_pdf_conversion` is ever entered. -/
theorem c5_no_install_message_when_import_fails :
    (runMain c5Env).exitCode = 1 ∧ (runMain c5Env).writes = [] ∧
    "Please install one of: docling, PyPDF2, or pdfplumber" ∉
      (runMain c5Env).prints := by decide

/-- C5 amended: with all three capabilities unavailable (so the docling
module fails to load, the automatic install fails, and both fallback
loads would fail), the process exits with a non-zero status and no output
file is created. -/
theorem c5_all_unavailable_exits_nonzero (env : ConvEnv)
    (h1 : env.doclingAvailable = false) (h2 : env.pipInstallSucceeds = false)
    (_h3 : env.pypdf2Available = false) (_h4 : env.pdfplumberAvailable = false) :
    (runMain env).exitCode = 1 ∧ (runMain env).writes = [] := by
  simp [runMain, convertWithDocling, h1, h2]

/-- C5 amended, witness. -/
theorem c5_all_unavailable_exits_nonzero_witness :
    (runMain c5Env).exitCode = 1 ∧ (runMain c5Env).writes = [] :=
  c5_all_unavailable_exits_nonzero c5Env rfl rfl rfl rfl

/-- C6: when the input path does not exist the run is fatal whatever the
library situation: the process exits with code 1, no output file is
written, and something is reported. -/
theorem c6_missing_input_fatal (env : ConvEnv) (h : env.fileExists = false) :
    (runMain env).exitCode = 1 ∧ (runMain env).writes = [] ∧
    (runMain env).prints ≠ [] := by
  cases hd : env.doclingAvailable <;> cases hp : env.pipInstallSucceeds <;>
    cases h2 : env.pypdf2Available <;> cases h3 : env.pdfplumberAvailable <;>
      simp [runMain, convertWithDocling, doclingImported,
        fallbackPdfConversion, h, hd, hp, h2, h3]

/-- C6 witness. -/
theorem c6_missing_input_fatal_witness :
    (runMain c6Env).exitCode = 1 ∧ (runMain c6Env).writes = [] ∧
    (runMain c6Env).prints ≠ [] :=
  c6_missing_input_fatal c6Env rfl

/-- C7: when docling imports but raises and PyPDF2 is available, exactly
one file is written, at the resolved output path, containing the synthetic
heading followed by the page texts concatenated in order, and the process
exits 0. -/
theorem c7_fallback_writes_concatenated_pages (env : ConvEnv)
    (hf : env.fileExists = true) (hd : env.doclingAvailable = true)
    (hr : env.doclingRaises = true) (hp : env.pypdf2Available = true) :
    (runMain env).writes =
      [(resolvedOut env,
        "# Resume - Converted from PDF\n\n" ++ String.join env.pypdf2Pages)] ∧
    (runMain env).exitCode = 0 := by
  simp [runMain, convertWithDocling, doclingImported, fallbackPdfConversion,
    hf, hd, hr, hp]

/-- C7 witness. -/
theorem c7_fallback_writes_concatenated_pages_witness :
    (runMain c7Env).writes =
      [(resolvedOut c7Env,
        "# Resume - Converted from PDF\n\n" ++ String.join c7Env.pypdf2Pages)] ∧
    (runMain c7Env).exitCode = 0 :=
  c7_fallback_writes_concatenated_pages c7Env rfl rfl rfl rfl

/-- C8: when the output path already exists and the operator's answer,
lowercased, is not exactly "y", the stamper returns normally (process exit
code 0), performs no write, and leaves the file system - in particular the
existing file's content - unchanged. -/
theorem c8_decline_overwrite_no_write (module layer outputDir : String)
    (env : StampEnv) (hl : layer ∈ validLayers)
    (he : (fsGet env.fs (stampPath module layer outputDir)).isSome = true)
    (hd : pyLower env.userInput ≠ "y") :
    exitCodeOf (generateTest module layer outputDir env) = 0 ∧
    (generateTest module layer outputDir env).writes = [] ∧
    (generateTest module layer outputDir env).fs = env.fs := by
  simp [generateTest, exitCodeOf, hl, he, hd]

/-- C8 witness: declining with "yes". -/
theorem c8_decline_overwrite_no_write_witness :
    exitCodeOf (generateTest "user" "dao" "tests" c8EnvS) = 0 ∧
    (generateTest "user" "dao" "tests" c8EnvS).writes = [] ∧
    (generateTest "user" "dao" "tests" c8EnvS).fs = c8EnvS.fs :=
  c8_decline_overwrite_no_write "user" "dao" "tests" c8EnvS (by decide)
    (by decide) (by decide)

set_option maxRecDepth 4000 in
/-- C9: stamping module "invoice" at layer "dao" into the default output
directory "tests" returns normally and writes exactly the file
`tests/test_invoice_dao.py`, whose content contains the substituted
identifier `InvoiceDAO` and the literal `'INSERT INTO invoice'`. -/
theorem c9_invoice_dao_file :
    (generateTest "invoice" "dao" "tests" c9Env).exit = none ∧
    (generateTest "invoice" "dao" "tests" c9Env).writes.map Prod.fst =
      ["tests/test_invoice_dao.py"] ∧
    ((generateTest "invoice" "dao" "tests" c9Env).writes.map
      (fun w => containsSub "InvoiceDAO".data w.2.data &&
        containsSub "\x27INSERT INTO invoice\x27".data w.2.data)) = [true] := by
  decide

/-- C10: when the output path already exists, the overwrite (a write
happening at all) occurs exactly when the operator's response, lowercased,
is the single character "y"; so "Y" is accepted while "yes", "Y E S" or an
empty answer abort. -/
theorem c10_overwrite_iff_lower_y (module layer outputDir : String)
    (env : StampEnv) (hl : layer ∈ validLayers)
    (he : (fsGet env.fs (stampPath module layer outputDir)).isSome = true) :
    (generateTest module layer outputDir env).writes ≠ [] ↔
      pyLower env.userInput = "y" := by
  by_cases hy : pyLower env.userInput = "y"
  · simp [generateTest, hl, he, hy]
  · simp [generateTest, hl, he, hy]

/-- C10 witness: the answer "Y" is accepted after lowercasing. -/
theorem c10_overwrite_iff_lower_y_witness :
    ((generateTest "user" "dao" "tests" c10EnvS).writes ≠ [] ↔
      pyLower c10EnvS.userInput = "y") :=
  c10_overwrite_iff_lower_y "user" "dao" "tests" c10EnvS (by decide) (by decide)
